import Mathlib

/-!
Verification of the prompt-accumulation and request-orchestration core of the
`ai-policy-advisor` repository.

The repository has two near-duplicate Python variants of the same class:
* `src/python/ai_policy_advisor/ai_policy_advisor.py` (the packaged variant,
  embedded below in namespace `Pkg`), and
* `src/ai_policy_advisor.py` (the legacy top-level variant, embedded in
  namespace `Legacy`).

Modelling conventions of the shallow embedding:
* A Python `str` is a Lean `String` (a list of Unicode scalar values);
  `s.encode("utf-8")` length is `pyEncodeLen`, and the character slice
  `s[:n]` is `pySlice`.
* Python exceptions are the inductive `PyExn`, one constructor per exception
  class that the source raises or catches (`ValueError`, `TypeError`,
  `FileNotFoundError`, and the generic `Exception`), each carrying the
  message string `str(e)`.
* The inputs accepted by `add_to_ai_prompt` that the verified claims exercise
  are `PyInput`: scalar text, finite sequences (list/tuple), and key-value
  mappings (dict).  Element values are `PyVal`; `PyVal.vobj` stands for a
  generic Python object that is not JSON-serializable (its `str()` rendering
  is address-dependent in Python and is modelled by a fixed placeholder; no
  verified claim depends on that rendering).
* `json.dumps(d, indent=2)` on a flat dict is `jsonDumps` (JSON string
  escaping of control characters is elided; it raises `TypeError` exactly when
  a value is not serializable, as CPython does).
* The external pandas CSV parsing/rendering used by `read_file_for_ai`
  (an external collaborator per the design) is abstracted as the function
  parameter `csvRender`; the filesystem is an association list from paths to
  raw file contents.
* The HTTP exchange of `call_ollama` is abstracted by the oracle
  `HttpOutcome`: connection failure, read timeout, an exception while
  iterating the stream, or a status code together with the list of received
  stream fragments.  Each stream line is a `Fragment`: either malformed
  (fails JSON decoding — the code also skips blank lines the same way) or a
  decoded object with an optional `response` token and a `done` flag.
  The orchestrator always requests `stream=True`, so the streaming branch is
  the one embedded.
* Mutable state (`self.ai_prompt`) is passed explicitly: each stateful
  operation takes the buffer before the call and returns the buffer after the
  call together with an `Except` for the raised-or-returned outcome.
-/

/-- Python exception classes appearing in the source, with their messages. -/
inductive PyExn
  | valueError (msg : String)
  | typeError (msg : String)
  | fileNotFoundError (msg : String)
  | exn (msg : String)
deriving DecidableEq, Repr

/-- `str(e)` of a Python exception: its message. -/
def exnMsg : PyExn → String
  | PyExn.valueError m => m
  | PyExn.typeError m => m
  | PyExn.fileNotFoundError m => m
  | PyExn.exn m => m

/-- Values that can occur as sequence elements or dict values in the inputs
the claims exercise.  `vobj` is a generic non-JSON-serializable object. -/
inductive PyVal
  | vstr (s : String)
  | vint (n : Int)
  | vobj
deriving DecidableEq, Repr

/-- Python `str(x)` on a `PyVal`.  `str` of a generic object is an
address-dependent repr in Python; it is modelled by a fixed placeholder. -/
def pyStr : PyVal → String
  | PyVal.vstr s => s
  | PyVal.vint n => toString n
  | PyVal.vobj => "<object object>"

/-- JSON rendering of one value, as `json.dumps` would produce it; raises
`TypeError` on a non-serializable value, as CPython does. -/
def jsonVal : PyVal → Except PyExn String
  | PyVal.vstr s => Except.ok ("\"" ++ s ++ "\"")
  | PyVal.vint n => Except.ok (toString n)
  | PyVal.vobj =>
    Except.error (PyExn.typeError "Object of type object is not JSON serializable")

/-- `json.dumps(d, indent=2)` on a flat dict given as an association list. -/
def jsonDumps (kvs : List (String × PyVal)) : Except PyExn String :=
  match kvs with
  | [] => Except.ok "\x7b\x7d"
  | _ => do
    let entries ← kvs.mapM (fun kv => do
      let v ← jsonVal kv.2
      pure ("  \"" ++ kv.1 ++ "\": " ++ v))
    pure ("\x7b\n" ++ ",\n".intercalate entries ++ "\n\x7d")

/-- The shapes of input that the verified claims pass to `add_to_ai_prompt`:
scalar text, a list/tuple, or a dict. -/
inductive PyInput
  | pstr (s : String)
  | pseq (xs : List PyVal)
  | pdict (kvs : List (String × PyVal))
deriving DecidableEq, Repr

/-- Byte length of the UTF-8 encoding of a string: `len(s.encode("utf-8"))`. -/
def pyEncodeLen (s : String) : Nat :=
  (s.data.map Char.utf8Size).sum

/-- Python character slice `s[:n]`. -/
def pySlice (s : String) (n : Nat) : String :=
  String.mk (s.data.take n)

/-- Python `s.endswith(suffix)`. -/
def pyEndsWith (s suffix : String) : Bool :=
  suffix.data.isSuffixOf s.data

namespace Pkg

/-- `max_chars` set in `__init__` (packaged variant, line 21). -/
def max_chars : Nat := 32000

/-- `max_preview_length` of the sequence branch (line 38). -/
def max_preview_length : Nat := 100

/-- `AIPolicyAdvisor.add_to_ai_prompt` of the packaged variant (lines 24–98),
restricted to the input shapes the claims exercise (str, list/tuple, dict).
State passing: takes the buffer `self.ai_prompt` before the call and returns
the buffer after the call, together with the returned original input or the
raised exception. -/
def add_to_ai_prompt (buf : String) (results : PyInput) (context : String) :
    String × Except PyExn PyInput :=
  match results with
  | PyInput.pstr s =>
    let results_string := s
    let results_string := if context ≠ "" then context ++ " " ++ results_string
      else results_string
    (buf ++ results_string ++ "\n", Except.ok results)
  | PyInput.pseq xs =>
    let results_string :=
      if xs.length > max_preview_length then
        " ".intercalate ((xs.take max_preview_length).map pyStr) ++
          " ... [and " ++ toString (xs.length - max_preview_length) ++ " more]"
      else
        " ".intercalate (xs.map pyStr)
    let results_string := if context ≠ "" then context ++ " " ++ results_string
      else results_string
    (buf ++ results_string ++ "\n", Except.ok results)
  | PyInput.pdict kvs =>
    match jsonDumps kvs with
    | Except.error e => (buf, Except.error e)
    | Except.ok rs =>
      let results_string := if context ≠ "" then context ++ "\n" ++ rs else rs
      (buf ++ results_string ++ "\n", Except.ok results)

/-- The `ValueError` message of the invalid-extension branch (lines 134–136). -/
def invalidFileTypeMsg : String :=
  "Invalid file type. Please use a CSV or markdown file."

/-- `AIPolicyAdvisor.read_file_for_ai` (lines 101–141).  `csvRender` abstracts
the pandas CSV parsing and row-limited table rendering of lines 117–125 (an
external collaborator); `fs` is the filesystem as a path→contents map.
Returns the buffer after the call and the returned text or raised exception.
The whole body runs inside `try`, whose handlers re-raise a
`FileNotFoundError` carrying the path and wrap every other exception —
including the function's own invalid-extension `ValueError` — into a generic
`Exception` prefixed with "Error reading file: ". -/
def read_file_for_ai (csvRender : String → String) (fs : List (String × String))
    (buf : String) (file_path : String) : String × Except PyExn String :=
  let inner : Except PyExn (String × String) :=
    if pyEndsWith file_path ".csv" then
      match fs.lookup file_path with
      | none => Except.error (PyExn.fileNotFoundError file_path)
      | some raw =>
        let text := csvRender raw
        Except.ok (buf ++ text ++ "\n", text)
    else if pyEndsWith file_path ".md" then
      match fs.lookup file_path with
      | none => Except.error (PyExn.fileNotFoundError file_path)
      | some raw => Except.ok (buf ++ raw ++ "\n", raw)
    else
      Except.error (PyExn.valueError invalidFileTypeMsg)
  match inner with
  | Except.ok (buf2, text) => (buf2, Except.ok text)
  | Except.error (PyExn.fileNotFoundError _) =>
    (buf, Except.error (PyExn.fileNotFoundError ("File not found: " ++ file_path)))
  | Except.error e =>
    (buf, Except.error (PyExn.exn ("Error reading file: " ++ exnMsg e)))

end Pkg

namespace Legacy

/-- `AIPolicyAdvisor.add_to_ai_prompt` of the legacy top-level variant
(src/ai_policy_advisor.py, lines 11–59): identical to the packaged variant
except that the sequence branch joins every element with no preview cap. -/
def add_to_ai_prompt (buf : String) (results : PyInput) (context : String) :
    String × Except PyExn PyInput :=
  match results with
  | PyInput.pstr s =>
    let results_string := s
    let results_string := if context ≠ "" then context ++ " " ++ results_string
      else results_string
    (buf ++ results_string ++ "\n", Except.ok results)
  | PyInput.pseq xs =>
    let results_string := " ".intercalate (xs.map pyStr)
    let results_string := if context ≠ "" then context ++ " " ++ results_string
      else results_string
    (buf ++ results_string ++ "\n", Except.ok results)
  | PyInput.pdict kvs =>
    match jsonDumps kvs with
    | Except.error e => (buf, Except.error e)
    | Except.ok rs =>
      let results_string := if context ≠ "" then context ++ "\n" ++ rs else rs
      (buf ++ results_string ++ "\n", Except.ok results)

end Legacy

/-- One line of the streamed response, after `line.decode` and `json.loads`:
either malformed (JSON decoding fails; blank lines are skipped the same way)
or a decoded object with an optional `response` token and a `done` flag
(`data.get("done", False)`). -/
inductive Fragment
  | malformed
  | obj (response : Option String) (done : Bool)
deriving DecidableEq, Repr

/-- The streaming loop of `call_ollama` (packaged variant lines 290–332; the
Jupyter and terminal branches accumulate `full_response` identically):
skip malformed fragments, append each `response` token to `full_response`,
and break at the first fragment whose `done` is true. -/
def streamLoop (fragments : List Fragment) (full_response : String) : String :=
  match fragments with
  | [] => full_response
  | Fragment.malformed :: rest => streamLoop rest full_response
  | Fragment.obj r d :: rest =>
    let full_response := match r with
      | some token => full_response ++ token
      | none => full_response
    if d then full_response else streamLoop rest full_response

/-- Specification-side view of the stream: the `response` tokens of the
well-formed fragments, in arrival order, up to and including the first
fragment with `done = true`. -/
def tokensUpToDone : List Fragment → List String
  | [] => []
  | Fragment.malformed :: rest => tokensUpToDone rest
  | Fragment.obj r d :: rest =>
    (match r with | some token => [token] | none => []) ++
      (if d then [] else tokensUpToDone rest)

/-- Specification-side concatenation of a token list in order. -/
def concatAll : List String → String
  | [] => ""
  | s :: rest => s ++ concatAll rest

/-- Outcome of the HTTP exchange of `call_ollama`, as an oracle: the
connection failed, the read timed out, iterating the stream raised, or a
response arrived with a status code and a list of stream fragments. -/
inductive HttpOutcome
  | connectionError
  | readTimeout
  | streamError (msg : String)
  | status (code : Nat) (fragments : List Fragment)
deriving DecidableEq, Repr

namespace Pkg

/-- Message of the `ConnectionError` handler (lines 346–349). -/
def connErrMsg : String :=
  "Could not connect to Ollama. Make sure Ollama is installed and running. On macOS, it should start automatically. You can check if it\x27s running with: ollama list"

/-- Message of the non-200-status `Exception` (lines 342–344), before the
generic handler wraps it. -/
def statusMsg (code : Nat) : String :=
  "Ollama API request failed with status " ++ toString code ++ ". Make sure Ollama is running and the model is available. You may be trying to pass too much information to the model at once. Try less."

/-- Message of the `ReadTimeout` handler (lines 350–370). -/
def timeoutMsg (model : String) : String :=
  "\n⏰ OLLAMA TIMEOUT (7 minutes)\n\nThe model \x27" ++ model ++ "\x27 is taking too long to respond. Try these solutions:\n\n1. **Use a smaller/faster model:**\n   - qwen3:8b (faster)\n   - llama3.2:latest (smaller)\n\n2. **Reduce your data size:**\n   - Send smaller chunks of data\n   - Summarize data before sending\n\n3. **Check your hardware:**\n   - Close other applications\n   - Ensure sufficient RAM/GPU memory\n\nCurrent model: " ++ model ++ "\nTimeout: 420 seconds (7 minutes)\n            "

/-- The POST payload prompt field: `f"{system_message}\n\nUser data: {user_prompt}"`
(line 271). -/
def payloadPrompt (system_message user_prompt : String) : String :=
  system_message ++ "\n\nUser data: " ++ user_prompt

/-- `AIPolicyAdvisor.call_ollama` (lines 263–372) in streaming mode (the only
mode the orchestrator uses).  Raises inside the `try` block are routed
through its handlers: `ConnectionError` and `ReadTimeout` have dedicated
handlers; the non-200-status `Exception` and any exception while iterating
the stream are caught by the generic handler and re-raised with the
"Error connecting to Ollama: " message prefix. -/
def call_ollama (model system_message user_prompt : String) (http : HttpOutcome) :
    Except PyExn String :=
  let _payload := payloadPrompt system_message user_prompt
  match http with
  | HttpOutcome.connectionError => Except.error (PyExn.exn connErrMsg)
  | HttpOutcome.readTimeout => Except.error (PyExn.exn (timeoutMsg model))
  | HttpOutcome.streamError m =>
    Except.error (PyExn.exn ("Error connecting to Ollama: " ++ m))
  | HttpOutcome.status code fragments =>
    if code = 200 then Except.ok (streamLoop fragments "")
    else Except.error (PyExn.exn ("Error connecting to Ollama: " ++ statusMsg code))

/-- The required config keys (line 180). -/
def required_keys : List String := ["data_background", "policy_question", "model"]

/-- `missing_keys = [key for key in required_keys if key not in config]`
(line 181); a config dict is an association list from keys to values. -/
def missing_keys (config : List (String × String)) : List String :=
  required_keys.filter (fun key => (config.lookup key).isNone)

/-- Python repr of a list of strings, as an f-string renders `{missing_keys}`. -/
def pyReprStrList (l : List String) : String :=
  "[" ++ ", ".intercalate (l.map (fun s => "\x27" ++ s ++ "\x27")) ++ "]"

/-- Python repr of a string-valued dict, as an f-string renders `{config}`. -/
def pyReprConfig (config : List (String × String)) : String :=
  "\x7b" ++ ", ".intercalate
    (config.map (fun kv => "\x27" ++ kv.1 ++ "\x27: \x27" ++ kv.2 ++ "\x27")) ++ "\x7d"

/-- The `ValueError` message of the empty-config branch (lines 165–177). -/
def cfgRequiredMsg : String :=
  "\n        ❌ CONFIG DICTIONARY REQUIRED!\n\n        You must pass a config dictionary. Add this at the top of your file:\n\n        CONFIG = \x7b\n            \"data_background\": \"Brief description of what your data represents\",\n            \"policy_question\": \"What specific question are you trying to answer?\",\n            \"model\": \"Which Ollama model to use (e.g., \x27qwen3:14b\x27)\"\n        \x7d\n\n        Then call: ai_policy_advisor(CONFIG)\n                "

/-- The `ValueError` message of the missing-keys branch (lines 184–193). -/
def missingKeysMsg (missing : List String) (config : List (String × String)) : String :=
  "\n        ❌ MISSING REQUIRED CONFIG KEYS: " ++ pyReprStrList missing ++
    "\n\n        Your config dictionary must include all these keys:\n        " ++
    pyReprStrList required_keys ++
    "\n\n        Current config: " ++ pyReprConfig config ++
    "\n\n        Fix by adding the missing keys to your CONFIG dictionary and naming them correctly.\n                "

/-- The `ValueError` message of the empty-buffer check (lines 203–206). -/
def emptyPromptMsg : String :=
  "Please provide a prompt to the ai_policy_advisor function."

/-- The `ValueError` message of the empty-model check (lines 208–211). -/
def missingModelMsg : String :=
  "Please pass an AI model name as the model parameter. Make sure to set the model in the top of the file in the CONFIG dictionary."

/-- The fixed system instruction (line 232). -/
def systemMessage (data_background policy_question : String) : String :=
  "You are a policy analyst/data scientist assisting in interpreting the data. " ++
    data_background ++ " " ++ policy_question ++
    " Focus on synthesizing the data results and providing insights across results, backing up every interpretation with clear evidence and rationale. Make sure to double and triple check that any numbers you repeat accurately reflect the numbers specifically given to you in the prompt. Provide a strong summary at the end."

/-- The fixed disclaimer prefixed to the returned interpretation (lines 246–249). -/
def disclaimer : String :=
  "----- Disclaimer: This interpretation was produced by a Large Language Model running locally via Ollama, which generates answers based on the text it was trained on. Therefore the answers may contain errors. It is important to verify the information with a domain expert before making any decisions. The AI Policy Advisor is meant to be a cheap, immediate, first-pass at interpreting data for policy and decision-making purposes. -----\n\n## AI Policy Advisor\n"

/-- The truncation of lines 234–238: if the UTF-8 byte length of the buffer
exceeds `max_chars`, take the character slice `ai_prompt[:max_chars]`. -/
def truncPrompt (ai_prompt : String) : String :=
  if pyEncodeLen ai_prompt > max_chars then pySlice ai_prompt max_chars
  else ai_prompt

/-- `AIPolicyAdvisor.ai_policy_advisor` (lines 143–261).  Takes the buffer
`self.ai_prompt` before the call, the config as an association list, and the
HTTP oracle; returns the buffer after the call and the returned
interpretation or raised exception.  The non-fatal `print` advisories of
lines 214–222 and the Word-document persistence of lines 252–256 are
external sinks and have no effect on the modelled state. -/
def ai_policy_advisor (buf : String) (config : List (String × String))
    (http : HttpOutcome) : String × Except PyExn String :=
  if config.isEmpty then (buf, Except.error (PyExn.valueError cfgRequiredMsg))
  else if missing_keys config ≠ [] then
    (buf, Except.error (PyExn.valueError (missingKeysMsg (missing_keys config) config)))
  else
    let data_background := (config.lookup "data_background").getD ""
    let policy_question := (config.lookup "policy_question").getD ""
    let model_name := (config.lookup "model").getD ""
    let ai_prompt := buf
    if ai_prompt = "" then (buf, Except.error (PyExn.valueError emptyPromptMsg))
    else if model_name = "" then (buf, Except.error (PyExn.valueError missingModelMsg))
    else
      let data_background :=
        if data_background ≠ "" then "Here is the data background: " ++ data_background
        else data_background
      let policy_question :=
        if policy_question ≠ "" then
          "I need help answering a specific policymaking/decision-making question: " ++
            policy_question
        else policy_question
      let system_message := systemMessage data_background policy_question
      let prompt_text := truncPrompt ai_prompt
      match call_ollama model_name system_message prompt_text http with
      | Except.error e => (buf, Except.error e)
      | Except.ok ai_response => ("", Except.ok (disclaimer ++ ai_response))

end Pkg

/-- Specification-side rendering of a finite sequence: every element in
order, joined by single spaces. -/
def joinSpace : List String → String
  | [] => ""
  | [s] => s
  | s :: rest => s ++ " " ++ joinSpace rest

/-- Tail form of `joinSpace`: a space before each element. -/
def joinTail : List String → String
  | [] => ""
  | s :: rest => " " ++ s ++ joinTail rest

instance [DecidableEq ε] [DecidableEq α] : DecidableEq (Except ε α) := fun a b =>
  match a, b with
  | Except.ok x, Except.ok y =>
    if h : x = y then isTrue (by rw [h])
    else isFalse (fun hc => h (Except.ok.inj hc))
  | Except.ok _, Except.error _ => isFalse (fun hc => Except.noConfusion hc)
  | Except.error _, Except.ok _ => isFalse (fun hc => Except.noConfusion hc)
  | Except.error x, Except.error y =>
    if h : x = y then isTrue (by rw [h])
    else isFalse (fun hc => h (Except.error.inj hc))

theorem strAppend_assoc (a b c : String) : a ++ b ++ c = a ++ (b ++ c) := by
  cases a with | mk la =>
  cases b with | mk lb =>
  cases c with | mk lc =>
  show String.mk (la ++ lb ++ lc) = String.mk (la ++ (lb ++ lc))
  rw [List.append_assoc]

theorem strAppend_empty (a : String) : a ++ "" = a := by
  cases a with | mk la =>
  show String.mk (la ++ []) = String.mk la
  rw [List.append_nil]

theorem strEmpty_append (a : String) : "" ++ a = a := by
  cases a with | mk la =>
  show String.mk ([] ++ la) = String.mk la
  rw [List.nil_append]

theorem intercalateGo_eq (l : List String) :
    ∀ acc, String.intercalate.go acc " " l = acc ++ joinTail l := by
  induction l with
  | nil => intro acc; simp [String.intercalate.go, joinTail, strAppend_empty]
  | cons a as ih =>
    intro acc
    show String.intercalate.go (acc ++ " " ++ a) " " as = acc ++ joinTail (a :: as)
    rw [ih]
    simp only [joinTail]
    rw [strAppend_assoc (acc ++ " ") a, strAppend_assoc acc " ", strAppend_assoc " " a]

theorem joinSpace_eq_head_tail (l : List String) :
    joinSpace l = match l with
      | [] => ""
      | a :: as => a ++ joinTail as := by
  induction l with
  | nil => rfl
  | cons a as ih =>
    cases as with
    | nil => simp [joinSpace, joinTail, strAppend_empty]
    | cons b bs =>
      simp only [joinSpace, joinTail] at ih ⊢
      rw [ih, strAppend_assoc, strAppend_assoc]

theorem intercalate_space_eq_joinSpace (l : List String) :
    " ".intercalate l = joinSpace l := by
  cases l with
  | nil => rfl
  | cons a as =>
    rw [joinSpace_eq_head_tail]
    show String.intercalate.go a " " as = _
    exact intercalateGo_eq as a

theorem streamLoop_eq_concatAll (fragments : List Fragment) :
    ∀ full, streamLoop fragments full = full ++ concatAll (tokensUpToDone fragments) := by
  induction fragments with
  | nil => intro full; simp [streamLoop, tokensUpToDone, concatAll, strAppend_empty]
  | cons f rest ih =>
    intro full
    cases f with
    | malformed => simpa [streamLoop, tokensUpToDone] using ih full
    | obj r d =>
      cases r with
      | none =>
        cases d with
        | true => simp [streamLoop, tokensUpToDone, concatAll, strAppend_empty]
        | false => simpa [streamLoop, tokensUpToDone] using ih full
      | some token =>
        cases d with
        | true =>
          simp [streamLoop, tokensUpToDone, concatAll, strAppend_empty, strAppend_assoc]
        | false =>
          simp only [streamLoop, tokensUpToDone, concatAll, if_false]
          rw [ih (full ++ token), strAppend_assoc]
          simp [concatAll]

/-- C3: the stream consumer of `call_ollama` concatenates the `response`
tokens of well-formed fragments in arrival order and stops at the first
fragment with `done = true` (`streamLoop frags "" = concatAll (tokensUpToDone
frags)`, and any suffix after the first done-fragment is ignored); a
malformed fragment interleaved anywhere neither aborts the stream nor
contributes to the result; and the concrete fragments "Hel", "lo", done
yield exactly "Hello". -/
theorem c3_stream_token_concatenation :
    (∀ fragments, streamLoop fragments "" = concatAll (tokensUpToDone fragments)) ∧
    (∀ l1 l2 full, streamLoop (l1 ++ Fragment.malformed :: l2) full =
      streamLoop (l1 ++ l2) full) ∧
    (∀ l1 r l2 full, streamLoop (l1 ++ Fragment.obj r true :: l2) full =
      streamLoop (l1 ++ [Fragment.obj r true]) full) ∧
    streamLoop [Fragment.obj (some "Hel") false, Fragment.obj (some "lo") false,
      Fragment.obj none true] "" = "Hello" := by
  refine ⟨?_, ?_, ?_, rfl⟩
  · intro fragments
    rw [streamLoop_eq_concatAll fragments "", strEmpty_append]
  · intro l1
    induction l1 with
    | nil => intro l2 full; rfl
    | cons f rest ih =>
      intro l2 full
      cases f with
      | malformed => simpa [streamLoop] using ih l2 full
      | obj r d =>
        cases d with
        | true => simp [streamLoop]
        | false => simp only [List.cons_append, streamLoop, if_false]; exact ih l2 _
  · intro l1
    induction l1 with
    | nil => intro r l2 full; cases r <;> rfl
    | cons f rest ih =>
      intro r l2 full
      cases f with
      | malformed => simpa [streamLoop] using ih r l2 full
      | obj r2 d =>
        cases d with
        | true => simp [streamLoop]
        | false => simp only [List.cons_append, streamLoop, if_false]; exact ih r l2 _

/-- C4: for every list/tuple passed to `add_to_ai_prompt`, a sequence of
length at most 100 is rendered with every element in order joined by single
spaces; a longer sequence is rendered as exactly the first 100 elements
followed by the trailer " ... [and N more]" with N the number of omitted
elements; in both cases the rendering (with the optional label prefix) plus
one line terminator is appended to the buffer and the original input is
returned. -/
theorem c4_sequence_preview_cap :
    ∀ buf context xs,
      (xs.length ≤ 100 →
        Pkg.add_to_ai_prompt buf (PyInput.pseq xs) context =
          (buf ++ ((if context ≠ "" then context ++ " " else "") ++
              (joinSpace (xs.map pyStr) ++ "\n")),
            Except.ok (PyInput.pseq xs))) ∧
      (xs.length > 100 →
        Pkg.add_to_ai_prompt buf (PyInput.pseq xs) context =
          (buf ++ ((if context ≠ "" then context ++ " " else "") ++
              (joinSpace ((xs.take 100).map pyStr) ++
                (" ... [and " ++ (toString (xs.length - 100) ++ (" more]" ++ "\n"))))),
            Except.ok (PyInput.pseq xs))) := by
  intro buf context xs
  constructor
  · intro h
    have hn : ¬ xs.length > Pkg.max_preview_length := by
      simp [Pkg.max_preview_length]; omega
    simp only [Pkg.add_to_ai_prompt, hn, if_false, intercalate_space_eq_joinSpace]
    by_cases hctx : context = ""
    · subst hctx
      simp only [ne_eq, not_true_eq_false, if_false, strEmpty_append]
      rw [strAppend_assoc]
    · simp only [ne_eq, hctx, not_false_eq_true, if_true]
      rw [strAppend_assoc, strAppend_assoc, strAppend_assoc]
  · intro h
    simp only [Pkg.add_to_ai_prompt, Pkg.max_preview_length, h, if_true,
      intercalate_space_eq_joinSpace]
    by_cases hctx : context = ""
    · subst hctx
      simp only [ne_eq, not_true_eq_false, if_false, strEmpty_append, strAppend_assoc]
    · simp only [ne_eq, hctx, not_false_eq_true, if_true, strAppend_assoc]

set_option maxRecDepth 8000 in
theorem c4_sequence_preview_cap_witness :
    (([PyVal.vstr "a", PyVal.vstr "b", PyVal.vstr "c"] : List PyVal).length ≤ 100) ∧
    Pkg.add_to_ai_prompt "B." (PyInput.pseq [PyVal.vstr "a", PyVal.vstr "b", PyVal.vstr "c"])
        "lbl" =
      ("B.lbl a b c\n",
        Except.ok (PyInput.pseq [PyVal.vstr "a", PyVal.vstr "b", PyVal.vstr "c"])) ∧
    ((List.replicate 101 (PyVal.vint 7)).length > 100) ∧
    Pkg.add_to_ai_prompt "" (PyInput.pseq (List.replicate 101 (PyVal.vint 7))) "" =
      ("7 7 7 7 7 7 7 7 7 7 7 7 7 7 7 7 7 7 7 7 7 7 7 7 7 7 7 7 7 7 7 7 7 7 7 7 7 7 7 7 7 7 7 7 7 7 7 7 7 7 7 7 7 7 7 7 7 7 7 7 7 7 7 7 7 7 7 7 7 7 7 7 7 7 7 7 7 7 7 7 7 7 7 7 7 7 7 7 7 7 7 7 7 7 7 7 7 7 7 7 ... [and 1 more]\n",
        Except.ok (PyInput.pseq (List.replicate 101 (PyVal.vint 7)))) := by
  refine ⟨by decide, ?_, by decide, ?_⟩
  · rw [(c4_sequence_preview_cap "B." "lbl"
      [PyVal.vstr "a", PyVal.vstr "b", PyVal.vstr "c"]).1 (by decide)]
    rfl
  · rw [(c4_sequence_preview_cap "" "" (List.replicate 101 (PyVal.vint 7))).2 (by decide)]
    rfl

/-- C10: on every string, dict, or list/tuple of length at most 100, and
every label, the legacy and packaged variants of `add_to_ai_prompt` append
identical text to the buffer and return the same original value (the two
variants agree on these input shapes; only the packaged one caps longer
sequences). -/
theorem c10_variant_agreement :
    ∀ buf context v,
      (match v with
        | PyInput.pseq xs => xs.length ≤ 100
        | _ => True) →
      Legacy.add_to_ai_prompt buf v context = Pkg.add_to_ai_prompt buf v context := by
  intro buf context v h
  cases v with
  | pstr s => rfl
  | pdict kvs => rfl
  | pseq xs =>
    have hn : ¬ xs.length > Pkg.max_preview_length := by
      simp only [Pkg.max_preview_length]
      simp only at h
      omega
    simp only [Legacy.add_to_ai_prompt, Pkg.add_to_ai_prompt, hn, if_false]

theorem c10_variant_agreement_witness :
    Legacy.add_to_ai_prompt "B." (PyInput.pseq [PyVal.vint 1, PyVal.vint 2]) "ctx" =
      Pkg.add_to_ai_prompt "B." (PyInput.pseq [PyVal.vint 1, PyVal.vint 2]) "ctx" :=
  c10_variant_agreement "B." "ctx" (PyInput.pseq [PyVal.vint 1, PyVal.vint 2]) (by decide)

set_option maxRecDepth 8000 in
/-- C5: with an empty config, `ai_policy_advisor` raises the configuration
error whose message lists all three required keys (each key name occurs in
the message text); with a config containing only `data_background`, it raises
the missing-keys error built from exactly the list
["policy_question", "model"] — the keys computed by the validation are those
two, in that order, and no others. -/
theorem c5_config_validation_messages :
    (∀ buf http, Pkg.ai_policy_advisor buf [] http =
      (buf, Except.error (PyExn.valueError Pkg.cfgRequiredMsg))) ∧
    List.IsInfix "data_background".data Pkg.cfgRequiredMsg.data ∧
    List.IsInfix "policy_question".data Pkg.cfgRequiredMsg.data ∧
    List.IsInfix "model".data Pkg.cfgRequiredMsg.data ∧
    Pkg.missing_keys [("data_background", "x")] = ["policy_question", "model"] ∧
    (∀ buf http, Pkg.ai_policy_advisor buf [("data_background", "x")] http =
      (buf, Except.error (PyExn.valueError
        (Pkg.missingKeysMsg ["policy_question", "model"] [("data_background", "x")])))) :=
  ⟨fun _ _ => rfl, by decide, by decide, by decide, rfl, fun _ _ => rfl⟩

/-- C7: for every config that contains all three required keys, whatever
their values (the model value may even be empty), calling `ai_policy_advisor`
with an empty buffer raises the EmptyPrompt error; the result is the same for
every HTTP oracle, so no HTTP request outcome is consulted. -/
theorem c7_empty_prompt_before_model_check :
    ∀ config buf http,
      (config.lookup "data_background").isSome = true →
      (config.lookup "policy_question").isSome = true →
      (config.lookup "model").isSome = true →
      buf = "" →
      Pkg.ai_policy_advisor buf config http =
        (buf, Except.error (PyExn.valueError Pkg.emptyPromptMsg)) := by
  intro config buf http h1 h2 h3 hb
  subst hb
  have hne : config.isEmpty = false := by
    cases config with
    | nil => simp at h3
    | cons a l => rfl
  obtain ⟨v1, hv1⟩ := Option.isSome_iff_exists.mp h1
  obtain ⟨v2, hv2⟩ := Option.isSome_iff_exists.mp h2
  obtain ⟨v3, hv3⟩ := Option.isSome_iff_exists.mp h3
  have hmiss : Pkg.missing_keys config = [] := by
    simp [Pkg.missing_keys, Pkg.required_keys, hv1, hv2, hv3]
  simp [Pkg.ai_policy_advisor, hne, hmiss]

theorem c7_empty_prompt_before_model_check_witness :
    Pkg.ai_policy_advisor ""
      [("data_background", ""), ("policy_question", ""), ("model", "")]
      HttpOutcome.connectionError =
    ("", Except.error (PyExn.valueError Pkg.emptyPromptMsg)) :=
  c7_empty_prompt_before_model_check
    [("data_background", ""), ("policy_question", ""), ("model", "")] ""
    HttpOutcome.connectionError (by decide) (by decide) (by decide) rfl

/-- C2: for every non-empty pre-call buffer and every config that passes
validation (all required keys present and a non-empty model), if
`ai_policy_advisor` returns successfully the buffer afterwards is empty, and
if it raises at any stage of the HTTP exchange (connection error, timeout,
non-200 status, stream error — every error the oracle can produce) the buffer
afterwards equals its pre-call content exactly. -/
theorem c2_buffer_cleared_on_success_kept_on_failure :
    ∀ buf config http,
      buf ≠ "" →
      Pkg.missing_keys config = [] →
      (config.lookup "model").getD "" ≠ "" →
      (∀ s, (Pkg.ai_policy_advisor buf config http).2 = Except.ok s →
        (Pkg.ai_policy_advisor buf config http).1 = "") ∧
      (∀ e, (Pkg.ai_policy_advisor buf config http).2 = Except.error e →
        (Pkg.ai_policy_advisor buf config http).1 = buf) := by
  intro buf config http h1 h2 h3
  have hne : config.isEmpty = false := by
    cases config with
    | nil => simp [Pkg.missing_keys, Pkg.required_keys] at h2
    | cons a l => rfl
  simp only [Pkg.ai_policy_advisor, hne, Bool.false_eq_true, if_false, h2, ne_eq,
    not_true_eq_false, if_false, h1, h3]
  cases hres : Pkg.call_ollama ((config.lookup "model").getD "")
      (Pkg.systemMessage
        (if ¬(config.lookup "data_background").getD "" = "" then
          "Here is the data background: " ++ (config.lookup "data_background").getD ""
         else (config.lookup "data_background").getD "")
        (if ¬(config.lookup "policy_question").getD "" = "" then
          "I need help answering a specific policymaking/decision-making question: " ++
            (config.lookup "policy_question").getD ""
         else (config.lookup "policy_question").getD ""))
      (Pkg.truncPrompt buf) http with
  | ok s => simp [hres]
  | error e => simp [hres]

theorem c2_buffer_cleared_on_success_kept_on_failure_witness :
    (Pkg.ai_policy_advisor "x"
      [("data_background", "d"), ("policy_question", "q"), ("model", "m")]
      HttpOutcome.connectionError).1 = "x" ∧
    (Pkg.ai_policy_advisor "x"
      [("data_background", "d"), ("policy_question", "q"), ("model", "m")]
      (HttpOutcome.status 200 [Fragment.obj (some "ok") true])).1 = "" := by
  constructor
  · exact (c2_buffer_cleared_on_success_kept_on_failure "x"
      [("data_background", "d"), ("policy_question", "q"), ("model", "m")]
      HttpOutcome.connectionError (by decide) (by decide) (by decide)).2
      (PyExn.exn Pkg.connErrMsg) rfl
  · exact (c2_buffer_cleared_on_success_kept_on_failure "x"
      [("data_background", "d"), ("policy_question", "q"), ("model", "m")]
      (HttpOutcome.status 200 [Fragment.obj (some "ok") true]) (by decide) (by decide)
      (by decide)).1 (Pkg.disclaimer ++ "ok") rfl

/-- C8: `add_to_ai_prompt` on a dict containing a non-JSON-serializable value
raises the `TypeError` coming out of the serialization in the mapping branch
— not the documented InvalidInputType `ValueError` of the fallback branch
(the error is not a `ValueError` with any message) — and the buffer is left
unchanged by the failed call. -/
theorem c8_dict_serialization_error_unclassified :
    ∀ buf context,
      Pkg.add_to_ai_prompt buf (PyInput.pdict [("a", PyVal.vobj)]) context =
        (buf, Except.error
          (PyExn.typeError "Object of type object is not JSON serializable")) ∧
      (∀ m, PyExn.typeError "Object of type object is not JSON serializable" ≠
        PyExn.valueError m) :=
  fun _ _ => ⟨rfl, fun _ h => PyExn.noConfusion h⟩

/-- C9: appending the empty string with no label appends exactly one line
terminator, leaving a non-empty buffer; a subsequent `ai_policy_advisor` call
on that buffer with a fully-populated config never raises the EmptyPrompt
error, whatever the HTTP outcome. -/
theorem c9_empty_string_append_defeats_empty_check :
    Pkg.add_to_ai_prompt "" (PyInput.pstr "") "" = ("\n", Except.ok (PyInput.pstr "")) ∧
    ("\n" : String) ≠ "" ∧
    (∀ http, (Pkg.ai_policy_advisor "\n"
        [("data_background", "d"), ("policy_question", "q"), ("model", "m")] http).2 ≠
      Except.error (PyExn.valueError Pkg.emptyPromptMsg)) := by
  refine ⟨rfl, by decide, ?_⟩
  intro http
  cases http with
  | connectionError => decide
  | readTimeout => decide
  | streamError m =>
    show Except.error (PyExn.exn ("Error connecting to Ollama: " ++ m)) ≠ _
    simp [Pkg.emptyPromptMsg]
  | status code fragments =>
    by_cases h200 : code = 200
    · subst h200
      show Except.ok _ ≠ _
      simp
    · show (Pkg.ai_policy_advisor "\n" _ (HttpOutcome.status code fragments)).2 ≠ _
      simp only [Pkg.ai_policy_advisor, Pkg.call_ollama]
      simp only [h200, Pkg.missing_keys, Pkg.required_keys]
      have hm : ((List.lookup "model"
          [("data_background", "d"), ("policy_question", "q"), ("model", "m")]).getD "" =
            "") = False := by decide
      simp only [hm]
      simp [Pkg.emptyPromptMsg]

/-- C6 counterexample: calling `read_file_for_ai` with the unsupported
extension "data.txt" does not surface the distinguishable invalid-file-type
`ValueError` raised inside the function: the function's own catch-all handler
rewraps it, and the caller receives the generic `Exception` class (the same
class every other read error is wrapped into), so the error is not
distinguishable from a generic catch-all by its class. -/
theorem c6_unsupported_extension_counterexample :
    Pkg.read_file_for_ai id [] "B." "data.txt" =
      ("B.", Except.error
        (PyExn.exn ("Error reading file: " ++ Pkg.invalidFileTypeMsg))) ∧
    (∀ m, PyExn.exn ("Error reading file: " ++ Pkg.invalidFileTypeMsg) ≠
      PyExn.valueError m) :=
  ⟨rfl, fun _ h => PyExn.noConfusion h⟩

/-- C6 amended: `read_file_for_ai` with an extension that is neither ".csv"
nor ".md" fails with the generic wrapped `Exception` whose message embeds the
invalid-file-type text (the inner `ValueError` is swallowed by the catch-all
rewrap, so the failure is identifiable only by message, not by a distinct
class); with a ".csv" or ".md" path naming a non-existent file it fails with
a `FileNotFoundError` carrying that path; in every such case the buffer is
left unchanged. -/
theorem c6_file_error_classification :
    ∀ csvRender fs buf file_path,
      (pyEndsWith file_path ".csv" = false → pyEndsWith file_path ".md" = false →
        Pkg.read_file_for_ai csvRender fs buf file_path =
          (buf, Except.error
            (PyExn.exn ("Error reading file: " ++ Pkg.invalidFileTypeMsg)))) ∧
      (pyEndsWith file_path ".csv" = false → pyEndsWith file_path ".md" = true →
        fs.lookup file_path = none →
        Pkg.read_file_for_ai csvRender fs buf file_path =
          (buf, Except.error
            (PyExn.fileNotFoundError ("File not found: " ++ file_path)))) ∧
      (pyEndsWith file_path ".csv" = true →
        fs.lookup file_path = none →
        Pkg.read_file_for_ai csvRender fs buf file_path =
          (buf, Except.error
            (PyExn.fileNotFoundError ("File not found: " ++ file_path)))) := by
  intro csvRender fs buf file_path
  refine ⟨?_, ?_, ?_⟩
  · intro hcsv hmd
    simp [Pkg.read_file_for_ai, hcsv, hmd, exnMsg]
  · intro hcsv hmd hfs
    simp [Pkg.read_file_for_ai, hcsv, hmd, hfs]
  · intro hcsv hfs
    simp [Pkg.read_file_for_ai, hcsv, hfs]

theorem c6_file_error_classification_witness :
    Pkg.read_file_for_ai id [] "B." "data.txt" =
      ("B.", Except.error
        (PyExn.exn ("Error reading file: " ++ Pkg.invalidFileTypeMsg))) ∧
    Pkg.read_file_for_ai id [] "B." "notes.md" =
      ("B.", Except.error (PyExn.fileNotFoundError "File not found: notes.md")) ∧
    Pkg.read_file_for_ai id [] "B." "table.csv" =
      ("B.", Except.error (PyExn.fileNotFoundError "File not found: table.csv")) := by
  refine ⟨?_, ?_, ?_⟩
  · exact (c6_file_error_classification id [] "B." "data.txt").1 (by decide) (by decide)
  · exact (c6_file_error_classification id [] "B." "notes.md").2.1 (by decide) (by decide)
      rfl
  · exact (c6_file_error_classification id [] "B." "table.csv").2.2 (by decide) rfl

/-- A buffer of 16001 copies of the two-byte character é (U+00E9): its UTF-8
encoding is 32002 bytes, exceeding `max_chars`, while its character length
16001 is well below `max_chars`, so the character slice `[:max_chars]` keeps
the whole string. -/
def twoBytePromptBuffer : String := String.mk (List.replicate 16001 'é')

/-- C1 (code bug): the truncation of lines 234–238 tests the UTF-8 byte
length against `max_chars` but then slices by characters
(`ai_prompt[:self.max_chars]`), contradicting its own comment "Truncate based
on byte length".  On a buffer whose UTF-8 encoding is 32002 bytes the
truncation triggers yet returns the buffer unchanged, so the user-data
portion sent to the model has UTF-8 byte length 32002 > 32000, violating the
claimed 32000-byte cap. -/
theorem c1_truncation_violates_byte_cap :
    pyEncodeLen twoBytePromptBuffer = 32002 ∧
    pyEncodeLen twoBytePromptBuffer > Pkg.max_chars ∧
    Pkg.truncPrompt twoBytePromptBuffer = twoBytePromptBuffer ∧
    pyEncodeLen (Pkg.truncPrompt twoBytePromptBuffer) > Pkg.max_chars := by
  have hsize : Char.utf8Size 'é' = 2 := rfl
  have hlen : pyEncodeLen twoBytePromptBuffer = 32002 := by
    show ((List.replicate 16001 'é').map Char.utf8Size).sum = 32002
    rw [List.map_replicate, hsize, List.sum_const_nat]
  have hslice : pySlice twoBytePromptBuffer Pkg.max_chars = twoBytePromptBuffer := by
    show String.mk ((List.replicate 16001 'é').take 32000) =
      String.mk (List.replicate 16001 'é')
    rw [List.take_of_length_le (by rw [List.length_replicate]; norm_num)]
  have htrunc : Pkg.truncPrompt twoBytePromptBuffer = twoBytePromptBuffer := by
    rw [Pkg.truncPrompt, if_pos, hslice]
    rw [hlen]
    simp [Pkg.max_chars]
  refine ⟨hlen, ?_, htrunc, ?_⟩
  · rw [hlen]; simp [Pkg.max_chars]
  · rw [htrunc, hlen]; simp [Pkg.max_chars]
